import Mathlib

/-!
Verification of the order-allocation core of the `booking-tickets` backend.

The development shallowly embeds the Go source:

* `internal/models/domain` (`Ticket`, `Order`) and the SQL schema
  (`tickets`, `orders`, `concert_sessions` tables) become the row structures
  and the `DB` state below.  Ticket ids are UUIDs in the source; here they are
  opaque `Nat` tokens (UUID comparison is a linear order, and any finite set of
  UUIDs embeds order-preservingly into `Nat`, which is all `ORDER BY id ASC`
  needs).  `shopspring/decimal` values are exact decimal numbers; every price the
  schema stores is `DECIMAL(10,2)`, i.e. an integer number of cents, and the
  only decimal operation the core performs is multiplication by an integer
  ticket count, under which the cent scaling is an exact ring embedding — so
  money is modelled as `Int` in cents (no rounding anywhere, faithfully to
  `decimal.Mul`).
* `internal/repository` queries become pure functions on `DB`
  (`getConcertSessionByID`, `getAvailableTicketsBySessionID`,
  `updateTicketStatuses`, `insertOrderRow`).
* `internal/service/order_service.go` `CreateOrder` becomes
  `serviceCreateOrder`; `internal/handler/grpc_handler.go` `CreateOrder`
  becomes `handlerCreateOrder`.  Fallible storage steps are driven by a
  failure `Oracle` so that every storage-failure path of the Go code is a
  reachable branch of the embedding.
* `BaseRepository.WithTransaction` is modelled by buffering the writes of the
  transaction body and installing them only on commit; every error path
  returns the caller-visible state unchanged (rollback).

One deliberate point of fidelity: in the source,
`GetAvailableTicketsBySessionID` issues its `SELECT ... FOR UPDATE` on
`r.GetDB()` — the connection pool — and **not** on the transaction `tx` that
`CreateOrder` passes to the other two repository calls.  A `FOR UPDATE` lock
taken by a single autocommit statement is released when that statement ends,
so the selection holds no lock for the rest of the unit of work.  The
interleaving `doubleSell` below exercises exactly that window.
-/

namespace BookingTickets

instance {ε α : Type} [DecidableEq ε] [DecidableEq α] : DecidableEq (Except ε α) := fun a b =>
  match a, b with
  | .error e, .error f => if h : e = f then .isTrue (by rw [h]) else .isFalse (by simp [h])
  | .ok x, .ok y => if h : x = y then .isTrue (by rw [h]) else .isFalse (by simp [h])
  | .error _, .ok _ => .isFalse (by simp)
  | .ok _, .error _ => .isFalse (by simp)

/-- Row of `concert_sessions` (`internal/models/db`, migration 001); only the
fields the allocation protocol reads are kept.  `price DECIMAL(10,2)` is
embedded as an exact integer number of cents. -/
structure SessionRow where
  id : Int
  concertId : Int
  price : Int
deriving Repr, DecidableEq

/-- Row of `tickets` (`internal/models/domain.Ticket`): UUID id (opaque `Nat`
token here), owning session, and status string
(`available` / `pending` / `sold`). -/
structure TicketRow where
  id : Nat
  sessionId : Int
  status : String
deriving Repr, DecidableEq

/-- Row of `orders` as the source inserts it: `INSERT INTO orders (status,
total_price) VALUES ($1,$2) RETURNING id, created_at, status, total_price`.
The row has no buyer column. -/
structure OrderRow where
  id : Int
  createdAt : Int
  status : String
  totalPrice : Int
deriving Repr, DecidableEq

/-- The visible (committed) database state.  `nextOrderId` models the
`SERIAL` order id sequence and `now` the clock that fills `created_at`. -/
structure DB where
  sessions : List SessionRow
  tickets : List TicketRow
  orders : List OrderRow
  nextOrderId : Int
  now : Int
deriving Repr, DecidableEq

/-- `ConcertSessionRepository.GetConcertSessionByID`:
`SELECT ... FROM concert_sessions WHERE id = $1`; `sql.ErrNoRows` is mapped
to `(nil, nil)`, i.e. `none`. -/
def getConcertSessionByID (db : DB) (id : Int) : Option SessionRow :=
  db.sessions.find? (fun s => s.id == id)

/-- The `WHERE session_id = $1 AND status = 'available'` clause of
`GetAvailableTicketsBySessionID`. -/
def availableTickets (db : DB) (sessionID : Int) : List TicketRow :=
  db.tickets.filter (fun t => t.sessionId == sessionID && t.status == "available")

/-- The `ORDER BY id ASC` ordering of the `tickets` query. -/
def ticketLe (a b : TicketRow) : Prop := a.id ≤ b.id

instance : DecidableRel ticketLe := fun a b => inferInstanceAs (Decidable (a.id ≤ b.id))

instance : IsTotal TicketRow ticketLe := ⟨fun a b => Nat.le_total a.id b.id⟩

instance : IsTrans TicketRow ticketLe := ⟨fun _ _ _ => Nat.le_trans⟩

/-- `TicketRepository.GetAvailableTicketsBySessionID`:
`SELECT id, session_id, status FROM tickets WHERE session_id = $1 AND
status = 'available' ORDER BY id ASC LIMIT $2 FOR UPDATE`.
The rows of `DB.tickets` are kept in unspecified physical order, so the
`ORDER BY` is modelled by sorting.  NOTE: the source runs this statement on
`r.GetDB()` (the pool, autocommit), not on the caller's transaction, so the
`FOR UPDATE` lock is dropped at the end of this one statement. -/
def getAvailableTicketsBySessionID (db : DB) (sessionID numberOfTickets : Int) :
    List TicketRow :=
  (List.insertionSort ticketLe (availableTickets db sessionID)).take numberOfTickets.toNat

/-- One iteration of the loop in `TicketRepository.UpdateTicketStatuses`:
`UPDATE tickets SET status = $1 WHERE id = $2`. -/
def updateTicketStatus1 (rows : List TicketRow) (status : String) (tid : Nat) :
    List TicketRow :=
  rows.map (fun r => if r.id == tid then { r with status := status } else r)

/-- `TicketRepository.UpdateTicketStatuses`: the loop issuing one `UPDATE`
per ticket of the argument list, all with the same target status.  Note the
`UPDATE` has no `AND status = 'available'` guard. -/
def updateTicketStatuses (rows : List TicketRow) (tickets : List TicketRow)
    (status : String) : List TicketRow :=
  tickets.foldl (fun acc t => updateTicketStatus1 acc status t.id) rows

/-- `OrderRepository.CreateOrder`: the `INSERT INTO orders (status,
total_price) ... RETURNING id, created_at, ...` statement.  The generated id
comes from the `SERIAL` sequence and `created_at` from the database clock. -/
def insertOrderRow (db : DB) (status : String) (totalPrice : Int) : OrderRow × DB :=
  let row : OrderRow :=
    { id := db.nextOrderId, createdAt := db.now, status := status, totalPrice := totalPrice }
  (row, { db with orders := db.orders ++ [row], nextOrderId := db.nextOrderId + 1 })

/-- Service-layer errors of `OrderService.CreateOrder`; the constructors are
in bijection with the `errors.New` messages of the source, plus `storage` for
errors bubbled up from the driver. -/
inductive SvcErr where
  | ticketsNotPositive
  | maxTickets
  | sessionNotFound
  | noTickets
  | storage (msg : String)
deriving Repr, DecidableEq

/-- The `err.Error()` string of each service error, as the gRPC handler
switches on it. -/
def SvcErr.message : SvcErr → String
  | .ticketsNotPositive => "number of tickets must be greater than 0"
  | .maxTickets => "maximum 3 tickets allowed per order"
  | .sessionNotFound => "concert session not found"
  | .noTickets => "no tickets available"
  | .storage m => m

/-- Failure oracle: which storage operations of one `CreateOrder` run fail.
All-`false` is the failure-free run; a `true` flag makes the corresponding
statement return a driver error, exactly as a lost connection or constraint
violation would in the source. -/
structure Oracle where
  failBegin : Bool
  failLookup : Bool
  failSelect : Bool
  failInsert : Bool
  failUpdate : Bool
  failCommit : Bool
deriving Repr, DecidableEq

/-- The failure-free oracle. -/
def Oracle.noFail : Oracle := ⟨false, false, false, false, false, false⟩

/-- `service.CreateOrderRequest`. -/
structure CreateOrderRequest where
  userID : Int
  concertSessionID : Int
  numberOfTickets : Int
deriving Repr, DecidableEq

/-- `service.CreateOrderResponse`; `TicketIDs` are the `uuid.String()` images
of the allocated ticket ids, modelled by the ids themselves (`String()` is
injective on UUIDs). -/
structure CreateOrderResponse where
  orderID : Int
  status : String
  ticketIDs : List Nat
  totalPrice : Int
  createdAt : Int
deriving Repr, DecidableEq

/-- The tail of the transaction body of `OrderService.CreateOrder` after the
ticket selection has produced `tickets`: the `len(tickets) == 0` check, the
price computation `decimal.NewFromInt(int64(len(tickets))).Mul(price)`, the
order insert and the ticket-status update, with the writes applied to a
transaction-local copy of the state (they become visible only on commit).
Factored out so that the interleaving analysis can run it on a selection
obtained earlier (stale), exactly as the source can. -/
def txAfterSelect (o : Oracle) (db : DB) (s : SessionRow) (tickets : List TicketRow) :
    Except SvcErr (OrderRow × DB) :=
  if tickets.length == 0 then .error .noTickets
  else
    let totalPrice : Int := (tickets.length : Int) * s.price
    if o.failInsert then .error (.storage "order insert failed")
    else
      let p := insertOrderRow db "pending" totalPrice
      if o.failUpdate then .error (.storage "ticket update failed")
      else
        let db2 := { p.2 with tickets := updateTicketStatuses p.2.tickets tickets "pending" }
        .ok (p.1, db2)

/-- The whole transaction body (the closure passed to `WithTransaction`):
session lookup, ticket selection, then `txAfterSelect`.  The two reads run on
the pool but see the same committed state in a single sequential run. -/
def txBody (o : Oracle) (db : DB) (req : CreateOrderRequest) :
    Except SvcErr (OrderRow × List TicketRow × DB) :=
  if o.failLookup then .error (.storage "session lookup failed")
  else
    match getConcertSessionByID db req.concertSessionID with
    | none => .error .sessionNotFound
    | some s =>
      if o.failSelect then .error (.storage "ticket select failed")
      else
        let tickets := getAvailableTicketsBySessionID db req.concertSessionID req.numberOfTickets
        match txAfterSelect o db s tickets with
        | .error e => .error e
        | .ok (ord, db2) => .ok (ord, tickets, db2)

/-- `OrderService.CreateOrder`: request validation, then the transaction via
`WithTransaction` (begin / body / commit-or-rollback).  The returned `DB` is
the committed state visible after the call: unchanged on every error path
(rollback, or failed begin/commit), the transaction's state on success.  The
`nil`-request check of the source is unreachable from the handler and is not
modelled. -/
def serviceCreateOrder (o : Oracle) (db : DB) (req : CreateOrderRequest) :
    Except SvcErr CreateOrderResponse × DB :=
  if req.numberOfTickets ≤ 0 then (.error .ticketsNotPositive, db)
  else if 3 < req.numberOfTickets then (.error .maxTickets, db)
  else if o.failBegin then (.error (.storage "tx begin failed"), db)
  else
    match txBody o db req with
    | .error e => (.error e, db)
    | .ok (ord, tickets, db2) =>
      if o.failCommit then (.error (.storage "tx commit failed"), db)
      else
        (.ok { orderID := ord.id, status := ord.status,
               ticketIDs := tickets.map (fun t => t.id),
               totalPrice := ord.totalPrice, createdAt := ord.createdAt },
         db2)

/-- gRPC status codes used by the handler. -/
inductive Code where
  | invalidArgument
  | notFound
  | resourceExhausted
  | internal
deriving Repr, DecidableEq

/-- The `switch err.Error()` of `GRPCHandler.CreateOrder` mapping service
errors to gRPC status codes.  Faithful to the source, the dispatch is on the
message string (so a driver error that happened to carry one of the known
messages would be reclassified, exactly as in the Go code). -/
def mapServiceError (e : SvcErr) : Code × String :=
  let m := e.message
  if m == "concert session not found" then (.notFound, "concert session not found")
  else if m == "no tickets available" then (.resourceExhausted, "no tickets available")
  else if m == "request cannot be nil" then (.invalidArgument, "request cannot be nil")
  else if m == "number of tickets must be greater than 0" then
    (.invalidArgument, "number_of_tickets must be positive")
  else if m == "maximum 3 tickets allowed per order" then
    (.invalidArgument, "maximum 3 tickets allowed per order")
  else (.internal, "failed to create order: " ++ m)

/-- `api.CreateOrderRequest` (proto `int32` fields modelled as `Int`). -/
structure ApiCreateOrderRequest where
  userId : Int
  concertSessionId : Int
  numberOfTickets : Int
deriving Repr, DecidableEq

/-- The wire response assembled by the handler.  `totalPrice` carries the
exact decimal value the handler feeds to
`float64(serviceResp.TotalPrice.InexactFloat64())`; the binary-float rounding
of that conversion is not modelled.  `createdAtSec` is the
`time.Unix(CreatedAt/1000, 0)` second value. -/
structure ApiCreateOrderResponse where
  orderId : Int
  status : String
  ticketIds : List Nat
  totalPrice : Int
  createdAtSec : Int
deriving Repr, DecidableEq

/-- `GRPCHandler.CreateOrder`: argument validation (user id, session id,
quantity bounds) with `InvalidArgument` before the service is invoked, then
the service call and the error-code mapping. -/
def handlerCreateOrder (o : Oracle) (db : DB) (req : ApiCreateOrderRequest) :
    Except (Code × String) ApiCreateOrderResponse × DB :=
  if req.userId ≤ 0 then (.error (.invalidArgument, "user_id must be positive"), db)
  else if req.concertSessionId ≤ 0 then
    (.error (.invalidArgument, "concert_session_id must be positive"), db)
  else if req.numberOfTickets ≤ 0 then
    (.error (.invalidArgument, "number_of_tickets must be positive"), db)
  else if 3 < req.numberOfTickets then
    (.error (.invalidArgument, "maximum 3 tickets allowed per order"), db)
  else
    match serviceCreateOrder o db
        { userID := req.userId, concertSessionID := req.concertSessionId,
          numberOfTickets := req.numberOfTickets } with
    | (.error e, db1) => (.error (mapServiceError e), db1)
    | (.ok r, db1) =>
      (.ok { orderId := r.orderID, status := r.status, ticketIds := r.ticketIDs,
             totalPrice := r.totalPrice, createdAtSec := r.createdAt / 1000 },
       db1)

/-- A session priced 50.00 (5000 cents) with a single provisioned ticket:
the smallest state exhibiting contention. -/
def sessionOne : SessionRow := { id := 1, concertId := 1, price := 5000 }

/-- One session, one available ticket (id 10), empty order table. -/
def dbOneTicket : DB :=
  { sessions := [sessionOne],
    tickets := [{ id := 10, sessionId := 1, status := "available" }],
    orders := [], nextOrderId := 1, now := 1000 }

/-- One allocation attempt run to completion from a previously obtained
ticket selection: session lookup, then `txAfterSelect`, then commit.  This is
exactly what one `CreateOrder` call does after its pool-side ticket `SELECT`
has returned, so a schedule of two concurrent calls is a composition of two
such steps applied to selections taken earlier. -/
def allocWithSelection (db : DB) (sessionID : Int) (tickets : List TicketRow) :
    Except SvcErr CreateOrderResponse × DB :=
  match getConcertSessionByID db sessionID with
  | none => (.error .sessionNotFound, db)
  | some s =>
    match txAfterSelect Oracle.noFail db s tickets with
    | .error e => (.error e, db)
    | .ok (ord, db2) =>
      (.ok { orderID := ord.id, status := ord.status,
             ticketIDs := tickets.map (fun t => t.id),
             totalPrice := ord.totalPrice, createdAt := ord.createdAt },
       db2)

/-- The double-sell interleaving of two concurrent `CreateOrder(session 1,
quantity 1)` calls A and B against `dbOneTicket`.  Schedule and why each step
is what the storage engine does:

1. A's ticket `SELECT ... FOR UPDATE` runs on the pool in autocommit
   (`r.GetDB().Select`), returns ticket 10, and releases its row lock at the
   end of the statement — A's transaction has issued no write yet.
2. B's ticket `SELECT` runs next, on the same committed state (A's
   transaction has neither locks on the row nor pending writes), and also
   returns ticket 10.
3. A's transaction inserts its order, flips ticket 10 to `pending`, commits.
4. B's transaction then inserts its order and runs
   `UPDATE tickets SET status = 'pending' WHERE id = 10`.  A has already
   committed, so no lock blocks B, the `WHERE` clause (which has no status
   guard) still matches, and the update succeeds; B commits. -/
def doubleSell :
    (Except SvcErr CreateOrderResponse × Except SvcErr CreateOrderResponse × DB) :=
  let selA := getAvailableTicketsBySessionID dbOneTicket 1 1
  let selB := getAvailableTicketsBySessionID dbOneTicket 1 1
  let stepA := allocWithSelection dbOneTicket 1 selA
  let stepB := allocWithSelection stepA.2 1 selB
  (stepA.1, stepB.1, stepB.2)

/-! ### Characterization lemmas for the embedded operations -/

/-- The sequential `UPDATE` loop acts pointwise: a row's status becomes the
target status exactly when its id occurs in the argument list, and nothing
else about any row changes. -/
theorem updateTicketStatuses_eq_map (ts rows : List TicketRow) (st : String) :
    updateTicketStatuses rows ts st
      = rows.map (fun r =>
          if r.id ∈ ts.map (fun t => t.id) then { r with status := st } else r) := by
  induction ts generalizing rows with
  | nil => simp [updateTicketStatuses]
  | cons t ts ih =>
    have h1 : updateTicketStatuses rows (t :: ts) st
        = updateTicketStatuses (updateTicketStatus1 rows st t.id) ts st := rfl
    rw [h1, ih, updateTicketStatus1, List.map_map]
    refine List.map_congr_left ?_
    intro r _
    by_cases h : r.id = t.id
    · simp [Function.comp, h]
    · simp [Function.comp, h]

/-- Inversion of a successful transaction tail: the selection was nonempty,
the order row carries status `pending` and the length-times-price total, and
the transaction state has exactly the new order row appended and the selected
tickets flipped to `pending`. -/
theorem txAfterSelect_ok (o : Oracle) (db : DB) (s : SessionRow)
    (tks : List TicketRow) (ord : OrderRow) (db2 : DB)
    (h : txAfterSelect o db s tks = .ok (ord, db2)) :
    tks ≠ [] ∧
    ord = { id := db.nextOrderId, createdAt := db.now, status := "pending",
            totalPrice := (tks.length : Int) * s.price } ∧
    db2 = { sessions := db.sessions,
            tickets := updateTicketStatuses db.tickets tks "pending",
            orders := db.orders ++
              [{ id := db.nextOrderId, createdAt := db.now, status := "pending",
                 totalPrice := (tks.length : Int) * s.price }],
            nextOrderId := db.nextOrderId + 1,
            now := db.now } := by
  unfold txAfterSelect insertOrderRow at h
  split at h
  next hlen => simp at h
  next hlen =>
    split at h
    · simp at h
    · split at h
      · simp at h
      · simp only [Except.ok.injEq, Prod.mk.injEq] at h
        obtain ⟨hord, hdb⟩ := h
        refine ⟨?_, hord.symm, hdb.symm⟩
        intro hnil
        subst hnil
        simp at hlen

/-- Inversion of a successful transaction body: the session exists, the
allocated tickets are exactly the (fresh) selection, and the state is as in
`txAfterSelect_ok`. -/
theorem txBody_ok (o : Oracle) (db : DB) (req : CreateOrderRequest)
    (ord : OrderRow) (tks : List TicketRow) (db2 : DB)
    (h : txBody o db req = .ok (ord, tks, db2)) :
    ∃ s, getConcertSessionByID db req.concertSessionID = some s ∧
      tks = getAvailableTicketsBySessionID db req.concertSessionID req.numberOfTickets ∧
      tks ≠ [] ∧
      ord = { id := db.nextOrderId, createdAt := db.now, status := "pending",
              totalPrice := (tks.length : Int) * s.price } ∧
      db2 = { sessions := db.sessions,
              tickets := updateTicketStatuses db.tickets tks "pending",
              orders := db.orders ++
                [{ id := db.nextOrderId, createdAt := db.now, status := "pending",
                   totalPrice := (tks.length : Int) * s.price }],
              nextOrderId := db.nextOrderId + 1,
              now := db.now } := by
  unfold txBody at h
  split at h
  · simp at h
  · split at h
    · simp at h
    next s hs =>
      split at h
      · simp at h
      · dsimp only [] at h
        split at h
        next e he => simp at h
        next ord2 db2x hok =>
          simp only [Except.ok.injEq, Prod.mk.injEq] at h
          obtain ⟨hord, htks, hdb⟩ := h
          subst hord htks hdb
          obtain ⟨hne, hord2, hdb2x⟩ := txAfterSelect_ok _ _ _ _ _ _ hok
          exact ⟨s, hs, rfl, hne, hord2, hdb2x⟩

/-- Every error outcome of the service leaves the visible database unchanged:
the transaction rolled back (or never began / failed to commit). -/
theorem serviceCreateOrder_error_db (o : Oracle) (db : DB) (req : CreateOrderRequest)
    (e : SvcErr) (db' : DB) (h : serviceCreateOrder o db req = (.error e, db')) :
    db' = db := by
  unfold serviceCreateOrder at h
  split at h
  · simp only [Prod.mk.injEq] at h
    exact h.2.symm
  · split at h
    · simp only [Prod.mk.injEq] at h
      exact h.2.symm
    · split at h
      · simp only [Prod.mk.injEq] at h
        exact h.2.symm
      · split at h
        · simp only [Prod.mk.injEq] at h
          exact h.2.symm
        · split at h
          · simp only [Prod.mk.injEq] at h
            exact h.2.symm
          · simp at h

/-- Inversion of a successful service call: the request was valid, the
session exists, the selection was nonempty, the response is assembled from
the selection and the inserted order row, and the committed state is exactly
the transaction's state. -/
theorem serviceCreateOrder_ok (o : Oracle) (db : DB) (req : CreateOrderRequest)
    (resp : CreateOrderResponse) (db2 : DB)
    (h : serviceCreateOrder o db req = (.ok resp, db2)) :
    0 < req.numberOfTickets ∧ req.numberOfTickets ≤ 3 ∧
    ∃ s, getConcertSessionByID db req.concertSessionID = some s ∧
      getAvailableTicketsBySessionID db req.concertSessionID req.numberOfTickets ≠ [] ∧
      resp = { orderID := db.nextOrderId, status := "pending",
               ticketIDs :=
                 (getAvailableTicketsBySessionID db req.concertSessionID
                   req.numberOfTickets).map (fun t => t.id),
               totalPrice :=
                 ((getAvailableTicketsBySessionID db req.concertSessionID
                   req.numberOfTickets).length : Int) * s.price,
               createdAt := db.now } ∧
      db2 = { sessions := db.sessions,
              tickets := updateTicketStatuses db.tickets
                (getAvailableTicketsBySessionID db req.concertSessionID
                  req.numberOfTickets) "pending",
              orders := db.orders ++
                [{ id := db.nextOrderId, createdAt := db.now, status := "pending",
                   totalPrice :=
                     ((getAvailableTicketsBySessionID db req.concertSessionID
                       req.numberOfTickets).length : Int) * s.price }],
              nextOrderId := db.nextOrderId + 1,
              now := db.now } := by
  unfold serviceCreateOrder at h
  split at h
  next hq => simp at h
  next hq =>
    split at h
    next hq3 => simp at h
    next hq3 =>
      split at h
      · simp at h
      · split at h
        next e he => simp at h
        next ord tks db2x hok =>
          split at h
          · simp at h
          · simp only [Prod.mk.injEq, Except.ok.injEq] at h
            obtain ⟨hresp, hdb2⟩ := h
            obtain ⟨s, hs, htks, hne, hord, hdbx⟩ := txBody_ok _ _ _ _ _ _ hok
            subst htks hord
            refine ⟨by omega, by omega, s, hs, hne, ?_, ?_⟩
            · rw [← hresp]
            · rw [← hdb2, hdbx]

/-- The length of the locked selection is the requested quantity capped by
the number of available tickets (`LIMIT`). -/
theorem getAvailable_length (db : DB) (sid q : Int) :
    (getAvailableTicketsBySessionID db sid q).length
      = min q.toNat (availableTickets db sid).length := by
  unfold getAvailableTicketsBySessionID
  rw [List.length_take, (List.perm_insertionSort ticketLe (availableTickets db sid)).length_eq]

/-- Whether a handler outcome is an `InvalidArgument` rejection. -/
def isInvalidArgument : Except (Code × String) ApiCreateOrderResponse → Bool
  | .error (.invalidArgument, _) => true
  | _ => false

/-- The handler maps the exhaustion message to `ResourceExhausted`. -/
theorem mapServiceError_noTickets :
    mapServiceError .noTickets = (.resourceExhausted, "no tickets available") := by decide

/-- The handler maps the missing-session message to `NotFound`. -/
theorem mapServiceError_sessionNotFound :
    mapServiceError .sessionNotFound = (.notFound, "concert session not found") := by decide

/-- An empty database, used to express that validation never reads storage. -/
def emptyDB : DB :=
  { sessions := [], tickets := [], orders := [], nextOrderId := 0, now := 0 }

/-! ### The claims -/

/-- C1: the spec requires the locking selection and the pending-marking to
run inside the same unit of work so that the sum of tickets reserved by
committed orders never exceeds the session's provisioned count and no ticket
is reserved by two committed orders.  The code instead issues the
`SELECT ... FOR UPDATE` on the pool (`r.GetDB()`), outside the transaction,
so under the `doubleSell` schedule two concurrent `CreateOrder(session 1,
quantity 1)` calls both commit against a session provisioned with one single
ticket, and both committed orders reserve ticket 10.  This theorem evaluates
the code on that schedule: both calls succeed, both responses carry ticket
10, two order rows are committed, yet only one ticket was ever provisioned. -/
theorem c1_select_outside_tx_double_reservation :
    doubleSell.1 = .ok { orderID := 1, status := "pending", ticketIDs := [10],
                         totalPrice := 5000, createdAt := 1000 } ∧
    doubleSell.2.1 = .ok { orderID := 2, status := "pending", ticketIDs := [10],
                           totalPrice := 5000, createdAt := 1000 } ∧
    (availableTickets dbOneTicket 1).length = 1 ∧
    doubleSell.2.2.orders.length = 2 := by decide

/-- C2 counterexample: the claim says a selection returning fewer than
`quantity` units (here 1 < 2) makes `CreateOrder` fail ResourceExhausted with
nothing reserved; the code only fails when the selection is empty, so the
call below succeeds, reserving 1 ticket and creating an order. -/
theorem c2_counterexample_underfull_allocation_succeeds :
    (availableTickets dbOneTicket 1).length = 1 ∧
    (1 : Int) < 2 ∧
    (handlerCreateOrder Oracle.noFail dbOneTicket
      { userId := 1, concertSessionId := 1, numberOfTickets := 2 }).1
      = .ok { orderId := 1, status := "pending", ticketIds := [10],
              totalPrice := 5000, createdAtSec := 1 } := by decide

/-- C2 amended: if the selection returns zero available ticket units, then
`CreateOrder` fails with ResourceExhausted("no tickets available"), the unit
of work aborts, and no ticket is reserved and no order is created (the
returned state is the input state).  When the selection is nonempty but
shorter than `quantity`, the code does not fail (see the counterexample). -/
theorem c2_amended_zero_selection_exhausted (o : Oracle) (db : DB)
    (req : ApiCreateOrderRequest)
    (hu : 0 < req.userId) (hcs : 0 < req.concertSessionId)
    (hq1 : 0 < req.numberOfTickets) (hq3 : req.numberOfTickets ≤ 3)
    (hb : o.failBegin = false) (hl : o.failLookup = false) (hsel : o.failSelect = false)
    (s : SessionRow) (hfound : getConcertSessionByID db req.concertSessionId = some s)
    (hzero : getAvailableTicketsBySessionID db req.concertSessionId req.numberOfTickets = []) :
    handlerCreateOrder o db req
      = (.error (Code.resourceExhausted, "no tickets available"), db) := by
  have hsvc : serviceCreateOrder o db
      { userID := req.userId, concertSessionID := req.concertSessionId,
        numberOfTickets := req.numberOfTickets } = (.error .noTickets, db) := by
    simp [serviceCreateOrder, txBody, txAfterSelect, hb, hl, hsel, hfound, hzero,
      show ¬req.numberOfTickets ≤ 0 by omega, show ¬3 < req.numberOfTickets by omega]
  simp [handlerCreateOrder, hsvc, mapServiceError_noTickets,
    show ¬req.userId ≤ 0 by omega, show ¬req.concertSessionId ≤ 0 by omega,
    show ¬req.numberOfTickets ≤ 0 by omega, show ¬3 < req.numberOfTickets by omega]

/-- Witness for C2: a session with no tickets; the call is rejected
ResourceExhausted and the state is untouched. -/
def dbNoTickets : DB :=
  { sessions := [sessionOne], tickets := [], orders := [], nextOrderId := 1, now := 1000 }

theorem c2_witness :
    handlerCreateOrder Oracle.noFail dbNoTickets
      { userId := 7, concertSessionId := 1, numberOfTickets := 1 }
      = (.error (Code.resourceExhausted, "no tickets available"), dbNoTickets) :=
  c2_amended_zero_selection_exhausted Oracle.noFail dbNoTickets
    { userId := 7, concertSessionId := 1, numberOfTickets := 1 }
    (by decide) (by decide) (by decide) (by decide) rfl rfl rfl
    sessionOne (by decide) (by decide)

/-- C3: every `CreateOrder` call that returns an error — validation failure,
missing session, empty selection, or a storage failure injected at any step
by the oracle — leaves the visible stored state exactly as it was: no order
row persists and no ticket status change persists. -/
theorem c3_failure_leaves_state_unchanged (o : Oracle) (db : DB)
    (req : ApiCreateOrderRequest) (e : Code × String) (db2 : DB)
    (h : handlerCreateOrder o db req = (.error e, db2)) : db2 = db := by
  unfold handlerCreateOrder at h
  split at h
  · simp only [Prod.mk.injEq] at h
    exact h.2.symm
  · split at h
    · simp only [Prod.mk.injEq] at h
      exact h.2.symm
    · split at h
      · simp only [Prod.mk.injEq] at h
        exact h.2.symm
      · split at h
        · simp only [Prod.mk.injEq] at h
          exact h.2.symm
        · split at h
          next e2 db1 hsvc =>
            simp only [Prod.mk.injEq] at h
            rw [← h.2]
            exact serviceCreateOrder_error_db _ _ _ _ _ hsvc
          next r db1 hsvc => simp at h

theorem c3_witness :
    (handlerCreateOrder Oracle.noFail dbOneTicket
        { userId := 1, concertSessionId := 999, numberOfTickets := 1 }
      = (.error (Code.notFound, "concert session not found"), dbOneTicket)) ∧
    dbOneTicket = dbOneTicket :=
  ⟨by decide,
   c3_failure_leaves_state_unchanged Oracle.noFail dbOneTicket
     { userId := 1, concertSessionId := 999, numberOfTickets := 1 }
     (Code.notFound, "concert session not found") dbOneTicket (by decide)⟩

/-- C4 counterexample: a successful call with quantity 2 against a session
holding one available ticket at price 5000 returns total price 5000, not
quantity × unit price = 10000; the code prices by the number of allocated
tickets, not by the requested quantity. -/
theorem c4_counterexample_underfull_allocation_price :
    (serviceCreateOrder Oracle.noFail dbOneTicket
      { userID := 1, concertSessionID := 1, numberOfTickets := 2 }).1
      = .ok { orderID := 1, status := "pending", ticketIDs := [10],
              totalPrice := 5000, createdAt := 1000 } ∧
    (2 : Int) * sessionOne.price = 10000 ∧ (5000 : Int) ≠ 10000 := by decide

/-- C4 amended: for every successful `CreateOrder` in which at least
`quantity` tickets are available for the session, the service-layer total
price equals quantity × session.unit_price, computed exactly (integer
arithmetic on the exact decimal representation, no rounding).  In general the
code prices by the number of allocated tickets, which the counterexample
shows can be fewer; and the gRPC handler subsequently converts this exact
value to a binary float64 (`InexactFloat64`) for the wire, outside this
model. -/
theorem c4_amended_exact_pricing (o : Oracle) (db : DB) (req : CreateOrderRequest)
    (s : SessionRow) (resp : CreateOrderResponse) (db2 : DB)
    (hfound : getConcertSessionByID db req.concertSessionID = some s)
    (henough : req.numberOfTickets.toNat ≤ (availableTickets db req.concertSessionID).length)
    (h : serviceCreateOrder o db req = (.ok resp, db2)) :
    resp.totalPrice = req.numberOfTickets * s.price := by
  obtain ⟨hq1, hq3, s2, hs2, hne, hresp, hdb2⟩ := serviceCreateOrder_ok _ _ _ _ _ h
  rw [hfound] at hs2
  injection hs2 with hs2
  subst hs2 hresp
  have hlen : (getAvailableTicketsBySessionID db req.concertSessionID
      req.numberOfTickets).length = req.numberOfTickets.toNat := by
    rw [getAvailable_length]
    omega
  simp only [hlen]
  rw [Int.toNat_of_nonneg (by omega)]

theorem c4_witness :
    ({ orderID := 1, status := "pending", ticketIDs := [10], totalPrice := 5000,
       createdAt := 1000 } : CreateOrderResponse).totalPrice = 1 * sessionOne.price :=
  c4_amended_exact_pricing Oracle.noFail dbOneTicket
    { userID := 1, concertSessionID := 1, numberOfTickets := 1 }
    sessionOne
    { orderID := 1, status := "pending", ticketIDs := [10], totalPrice := 5000,
      createdAt := 1000 }
    { sessions := [sessionOne],
      tickets := [{ id := 10, sessionId := 1, status := "pending" }],
      orders := [{ id := 1, createdAt := 1000, status := "pending", totalPrice := 5000 }],
      nextOrderId := 2, now := 1000 }
    (by decide) (by decide) (by decide)

/-- C5: a request whose quantity is zero, negative, or above MAX_PER_ORDER
(3) is rejected as InvalidArgument, the stored state is untouched, and the
outcome is the same against every database and every failure oracle — the
rejection happens before any storage access. -/
theorem c5_invalid_quantity_rejected_before_storage (req : ApiCreateOrderRequest)
    (h : req.numberOfTickets ≤ 0 ∨ 3 < req.numberOfTickets)
    (o : Oracle) (db : DB) :
    isInvalidArgument (handlerCreateOrder o db req).1 = true ∧
    (handlerCreateOrder o db req).2 = db ∧
    (handlerCreateOrder o db req).1 = (handlerCreateOrder Oracle.noFail emptyDB req).1 := by
  unfold handlerCreateOrder
  by_cases hu : req.userId ≤ 0
  · simp [hu, isInvalidArgument]
  · by_cases hcs : req.concertSessionId ≤ 0
    · simp [hu, hcs, isInvalidArgument]
    · rcases h with h | h
      · simp [hu, hcs, h, isInvalidArgument]
      · simp [hu, hcs, h, show ¬req.numberOfTickets ≤ 0 by omega, isInvalidArgument]

theorem c5_witness :
    isInvalidArgument (handlerCreateOrder Oracle.noFail dbOneTicket
      { userId := 1, concertSessionId := 1, numberOfTickets := 4 }).1 = true ∧
    (handlerCreateOrder Oracle.noFail dbOneTicket
      { userId := 1, concertSessionId := 1, numberOfTickets := 4 }).2 = dbOneTicket ∧
    (handlerCreateOrder Oracle.noFail dbOneTicket
      { userId := 1, concertSessionId := 1, numberOfTickets := 4 }).1
      = (handlerCreateOrder Oracle.noFail emptyDB
          { userId := 1, concertSessionId := 1, numberOfTickets := 4 }).1 :=
  c5_invalid_quantity_rejected_before_storage
    { userId := 1, concertSessionId := 1, numberOfTickets := 4 }
    (Or.inr (by decide)) Oracle.noFail dbOneTicket

/-- C6: a request with valid arguments whose session id does not refer to an
existing session fails with NotFound("concert session not found") — not a
validation error and not a crash — and the state is returned unchanged (the
unit of work aborted with no mutation). -/
theorem c6_missing_session_not_found (o : Oracle) (db : DB)
    (req : ApiCreateOrderRequest)
    (hu : 0 < req.userId) (hcs : 0 < req.concertSessionId)
    (hq1 : 0 < req.numberOfTickets) (hq3 : req.numberOfTickets ≤ 3)
    (hb : o.failBegin = false) (hl : o.failLookup = false)
    (habsent : getConcertSessionByID db req.concertSessionId = none) :
    handlerCreateOrder o db req
      = (.error (Code.notFound, "concert session not found"), db) := by
  have hsvc : serviceCreateOrder o db
      { userID := req.userId, concertSessionID := req.concertSessionId,
        numberOfTickets := req.numberOfTickets } = (.error .sessionNotFound, db) := by
    simp [serviceCreateOrder, txBody, hb, hl, habsent,
      show ¬req.numberOfTickets ≤ 0 by omega, show ¬3 < req.numberOfTickets by omega]
  simp [handlerCreateOrder, hsvc, mapServiceError_sessionNotFound,
    show ¬req.userId ≤ 0 by omega, show ¬req.concertSessionId ≤ 0 by omega,
    show ¬req.numberOfTickets ≤ 0 by omega, show ¬3 < req.numberOfTickets by omega]

theorem c6_witness :
    handlerCreateOrder Oracle.noFail dbOneTicket
      { userId := 3, concertSessionId := 999, numberOfTickets := 2 }
      = (.error (Code.notFound, "concert session not found"), dbOneTicket) :=
  c6_missing_session_not_found Oracle.noFail dbOneTicket
    { userId := 3, concertSessionId := 999, numberOfTickets := 2 }
    (by decide) (by decide) (by decide) (by decide) rfl rfl (by decide)

/-- C7 counterexample: the claim says a successful response contains exactly
`quantity` ticket identifiers; against a session with one available ticket a
quantity-2 request succeeds with a single ticket identifier. -/
theorem c7_counterexample_fewer_than_quantity :
    (serviceCreateOrder Oracle.noFail dbOneTicket
      { userID := 1, concertSessionID := 1, numberOfTickets := 2 }).1
      = .ok { orderID := 1, status := "pending", ticketIDs := [10],
              totalPrice := 5000, createdAt := 1000 } ∧
    ([10] : List Nat).length = 1 ∧ (1 : Nat) ≠ 2 := by decide

/-- C7 amended: every successful `CreateOrder` returns a summary with status
"pending" whose ticket identifiers are exactly those of the selected tickets
— `min(quantity, available)` of them, which equals `quantity` whenever at
least `quantity` tickets are available (the counterexample shows it can be
fewer) — and every ticket row carrying one of those identifiers is in status
"pending" in the state committed by the same unit of work. -/
theorem c7_amended_response_owns_selection (o : Oracle) (db : DB)
    (req : CreateOrderRequest) (resp : CreateOrderResponse) (db2 : DB)
    (h : serviceCreateOrder o db req = (.ok resp, db2)) :
    resp.status = "pending" ∧
    resp.ticketIDs = (getAvailableTicketsBySessionID db req.concertSessionID
      req.numberOfTickets).map (fun t => t.id) ∧
    resp.ticketIDs.length
      = min req.numberOfTickets.toNat (availableTickets db req.concertSessionID).length ∧
    ∀ r ∈ db2.tickets, r.id ∈ resp.ticketIDs → r.status = "pending" := by
  obtain ⟨hq1, hq3, s, hs, hne, hresp, hdb2⟩ := serviceCreateOrder_ok _ _ _ _ _ h
  subst hresp hdb2
  refine ⟨rfl, rfl, ?_, ?_⟩
  · rw [List.length_map, getAvailable_length]
  · intro r hr hid
    rw [updateTicketStatuses_eq_map] at hr
    obtain ⟨r0, hr0, hfr⟩ := List.mem_map.mp hr
    by_cases hmem : r0.id ∈ (getAvailableTicketsBySessionID db req.concertSessionID
        req.numberOfTickets).map (fun t => t.id)
    · rw [← hfr, if_pos hmem]
    · rw [← hfr, if_neg hmem] at hid
      exact absurd hid hmem

theorem c7_witness :
    (({ orderID := 1, status := "pending", ticketIDs := [10], totalPrice := 5000,
        createdAt := 1000 } : CreateOrderResponse).status = "pending") ∧
    ({ orderID := 1, status := "pending", ticketIDs := [10], totalPrice := 5000,
       createdAt := 1000 } : CreateOrderResponse).ticketIDs
      = (getAvailableTicketsBySessionID dbOneTicket 1 1).map (fun t => t.id) ∧
    ({ orderID := 1, status := "pending", ticketIDs := [10], totalPrice := 5000,
       createdAt := 1000 } : CreateOrderResponse).ticketIDs.length
      = min (Int.toNat 1) (availableTickets dbOneTicket 1).length ∧
    ∀ r ∈ ({ sessions := [sessionOne],
             tickets := [{ id := 10, sessionId := 1, status := "pending" }],
             orders := [{ id := 1, createdAt := 1000, status := "pending",
                          totalPrice := 5000 }],
             nextOrderId := 2, now := 1000 } : DB).tickets,
      r.id ∈ ({ orderID := 1, status := "pending", ticketIDs := [10], totalPrice := 5000,
                createdAt := 1000 } : CreateOrderResponse).ticketIDs →
      r.status = "pending" :=
  c7_amended_response_owns_selection Oracle.noFail dbOneTicket
    { userID := 1, concertSessionID := 1, numberOfTickets := 1 }
    { orderID := 1, status := "pending", ticketIDs := [10], totalPrice := 5000,
      createdAt := 1000 }
    { sessions := [sessionOne],
      tickets := [{ id := 10, sessionId := 1, status := "pending" }],
      orders := [{ id := 1, createdAt := 1000, status := "pending", totalPrice := 5000 }],
      nextOrderId := 2, now := 1000 }
    (by decide)

/-- C8: the selection draws only from the requested session's tickets in
state "available", in strictly ascending unit-identifier order (ticket ids
are unique — the primary key — which the `Nodup` hypothesis records), and a
successful response's ticket-identifier list is exactly the selection's ids
in selection order. -/
theorem c8_selection_ascending_and_preserved (db : DB) (sid q : Int)
    (hnd : (db.tickets.map (fun t => t.id)).Nodup) :
    (∀ t ∈ getAvailableTicketsBySessionID db sid q,
      t.sessionId = sid ∧ t.status = "available") ∧
    ((getAvailableTicketsBySessionID db sid q).map (fun t => t.id)).Sorted (· < ·) ∧
    (∀ (o : Oracle) (req : CreateOrderRequest) (resp : CreateOrderResponse) (db2 : DB),
      req.concertSessionID = sid → req.numberOfTickets = q →
      serviceCreateOrder o db req = (.ok resp, db2) →
      resp.ticketIDs = (getAvailableTicketsBySessionID db sid q).map (fun t => t.id)) := by
  have hsub2 : List.Sublist (getAvailableTicketsBySessionID db sid q)
      (List.insertionSort ticketLe (availableTickets db sid)) :=
    List.take_sublist _ _
  refine ⟨?_, ?_, ?_⟩
  · intro t ht
    have h1 : t ∈ List.insertionSort ticketLe (availableTickets db sid) := hsub2.mem ht
    rw [List.mem_insertionSort] at h1
    have h2 := List.mem_filter.mp h1
    have h3 := h2.2
    simp only [Bool.and_eq_true, beq_iff_eq] at h3
    exact h3
  · have hsub1 : List.Sublist (availableTickets db sid) db.tickets :=
      List.filter_sublist _
    have hnd1 : ((availableTickets db sid).map (fun t => t.id)).Nodup :=
      hnd.sublist (hsub1.map _)
    have hperm : List.Perm
        ((List.insertionSort ticketLe (availableTickets db sid)).map (fun t => t.id))
        ((availableTickets db sid).map (fun t => t.id)) :=
      (List.perm_insertionSort ticketLe _).map _
    have hnd2 : ((List.insertionSort ticketLe (availableTickets db sid)).map
        (fun t => t.id)).Nodup := hperm.nodup_iff.mpr hnd1
    have hnd3 : ((getAvailableTicketsBySessionID db sid q).map (fun t => t.id)).Nodup :=
      hnd2.sublist (hsub2.map _)
    have hsorted : List.Sorted ticketLe (getAvailableTicketsBySessionID db sid q) :=
      (List.sorted_insertionSort ticketLe (availableTickets db sid)).sublist hsub2
    have hmaple : ((getAvailableTicketsBySessionID db sid q).map
        (fun t => t.id)).Sorted (· ≤ ·) := by
      rw [List.Sorted, List.pairwise_map]
      exact hsorted
    exact hmaple.lt_of_le hnd3
  · intro o req resp db2 hcs hq h
    obtain ⟨hq1, hq3, s, hs, hne, hresp, hdb2⟩ := serviceCreateOrder_ok _ _ _ _ _ h
    subst hcs hq hresp
    rfl

theorem c8_witness :
    (∀ t ∈ getAvailableTicketsBySessionID dbOneTicket 1 1,
      t.sessionId = 1 ∧ t.status = "available") ∧
    ((getAvailableTicketsBySessionID dbOneTicket 1 1).map (fun t => t.id)).Sorted (· < ·) :=
  ⟨(c8_selection_ascending_and_preserved dbOneTicket 1 1 (by decide)).1,
   (c8_selection_ascending_and_preserved dbOneTicket 1 1 (by decide)).2.1⟩

/-- The service never reads the buyer id: two literal requests differing only
in `UserID` denote definitionally equal computations. -/
theorem serviceCreateOrder_userID_irrelevant (o : Oracle) (db : DB) (u1 u2 sid q : Int) :
    serviceCreateOrder o db { userID := u1, concertSessionID := sid, numberOfTickets := q }
      = serviceCreateOrder o db
          { userID := u2, concertSessionID := sid, numberOfTickets := q } := rfl

/-- C9: the outcome of `CreateOrder` — response, error, and the entire
committed state, which contains the order row with only status and total
price — is identical for any two positive buyer identifiers with the same
session id, quantity, stored state and failure behaviour: the buyer id is
never persisted nor consulted past the positivity check. -/
theorem c9_buyer_id_noninterference (o : Oracle) (db : DB) (u1 u2 sid q : Int)
    (h1 : 0 < u1) (h2 : 0 < u2) :
    handlerCreateOrder o db { userId := u1, concertSessionId := sid, numberOfTickets := q }
      = handlerCreateOrder o db
          { userId := u2, concertSessionId := sid, numberOfTickets := q } := by
  unfold handlerCreateOrder
  simp only [show ¬u1 ≤ 0 by omega, show ¬u2 ≤ 0 by omega, if_false]
  rw [serviceCreateOrder_userID_irrelevant o db u1 u2 sid q]

theorem c9_witness :
    handlerCreateOrder Oracle.noFail dbOneTicket
      { userId := 1, concertSessionId := 1, numberOfTickets := 1 }
      = handlerCreateOrder Oracle.noFail dbOneTicket
          { userId := 2, concertSessionId := 1, numberOfTickets := 1 } :=
  c9_buyer_id_noninterference Oracle.noFail dbOneTicket 1 2 1 1 (by decide) (by decide)

/-- C10: `UpdateTicketStatuses` acts rowwise on the ticket table: every row
keeps its identifier and session, its status becomes the target status
exactly when its id appears in the argument list, and rows whose ids do not
appear are unchanged in every field (no row is created or deleted — the
`Forall₂` relates the tables pointwise). -/
theorem c10_update_status_frame (rows tickets : List TicketRow) (status : String) :
    List.Forall₂ (fun r u =>
        u.id = r.id ∧ u.sessionId = r.sessionId ∧
        u.status = (if r.id ∈ tickets.map (fun t => t.id) then status else r.status) ∧
        (r.id ∉ tickets.map (fun t => t.id) → u = r))
      rows (updateTicketStatuses rows tickets status) := by
  rw [updateTicketStatuses_eq_map, List.forall₂_map_right_iff, List.forall₂_same]
  intro r _
  by_cases h : r.id ∈ tickets.map (fun t => t.id)
  · rw [if_pos h, if_pos h]
    exact ⟨rfl, rfl, rfl, fun hc => absurd h hc⟩
  · rw [if_neg h, if_neg h]
    exact ⟨rfl, rfl, rfl, fun _ => rfl⟩

theorem c10_witness :
    List.Forall₂ (fun r u =>
        u.id = r.id ∧ u.sessionId = r.sessionId ∧
        u.status = (if r.id ∈ ([({ id := 10, sessionId := 1, status := "available" } :
              TicketRow)].map (fun t => t.id)) then "pending" else r.status) ∧
        (r.id ∉ [({ id := 10, sessionId := 1, status := "available" } :
              TicketRow)].map (fun t => t.id) → u = r))
      dbOneTicket.tickets
      (updateTicketStatuses dbOneTicket.tickets
        [{ id := 10, sessionId := 1, status := "available" }] "pending") :=
  c10_update_status_frame dbOneTicket.tickets
    [{ id := 10, sessionId := 1, status := "available" }] "pending"

end BookingTickets
